import Mathlib

/-!
Shallow embedding of the OpenMetadata profiler core: the SQLAlchemy profiler
interface (`profiler_interface.py`), the sampler (`sampler.py`,
`sampler_interface.py`), the static metric compilation layer (`mean.py`,
`min.py`, `sum.py`, `stddev.py`), the median dialect registry (`median.py`)
and the processor status (`status.py`, `processor.py`).

Python dictionaries are modelled as association lists with Python
`dict.update` semantics (existing keys overwritten in place, new keys
appended).  Exceptions are modelled with `Except`; the mutable session is
threaded explicitly as a `SessionState`.
-/

namespace OMProfiler

/-- Values stored in result rows (Python dict values). -/
inductive Value where
  | str : String → Value
  | int : Int → Value
  | rat : ℚ → Value
  | null : Value
deriving DecidableEq, Repr

/-- One result row / Python dict from string keys to values. -/
abbrev Row := List (String × Value)

/-- Set one key of a Python dict: overwrite in place if present, append if new. -/
def dictSet (d : Row) (k : String) (v : Value) : Row :=
  if d.any (fun p => p.1 = k) then
    d.map (fun p => if p.1 = k then (k, v) else p)
  else
    d ++ [(k, v)]

/-- Python `dict.update`: fold `dictSet` over the update payload. -/
def dictUpdate (d : Row) : Row → Row
  | [] => d
  | (k, v) :: rest => dictUpdate (dictSet d k v) rest

/-- Python dict lookup: value of the first entry with the given key. -/
def dictGet (d : Row) (k : String) : Option Value :=
  (d.find? (fun p => p.1 = k)).map (fun p => p.2)

/-- Metric taxonomy tags used for dispatch (`MetricTypes` in metrics/core).
Modelled from the spec: the enum module is not under src/, but the five
variants used by the orchestrator appear literally in
`profiler_interface.py` (`MetricTypes.Table.value`, `.Static`, `.Query`,
`.Window`, `.System`). -/
inductive MetricType where
  | Table
  | Static
  | Query
  | Window
  | System
deriving DecidableEq, Repr

/-- SQL dialects referenced by the profiler core (`Dialects` registry). -/
inductive Dialect where
  | snowflake
  | mysql
  | sqlite
  | athena
  | trino
  | presto
  | bigquery
  | clickhouse
  | mssql
  | hive
  | impala
  | postgres
deriving DecidableEq, Repr

/-- Column type families (`is_quantifiable`, `is_concatenable`,
`is_date_time` in orm/registry).  Modelled from the spec: the registry
module is not under src/; the spec classifies column types into
quantifiable/numeric, concatenable/text, date-time and other. -/
inductive TypeFamily where
  | quantifiable
  | concatenable
  | dateTime
  | other
deriving DecidableEq, Repr

/-- The aggregate function head of a compiled static-metric expression. -/
inductive AggFn where
  | avg
  | minF
  | sumF
  | stddevF
deriving DecidableEq, Repr

/-- The argument of a compiled static-metric expression: the raw column or
the column wrapped in the `LenFn` length transform. -/
inductive ColArg where
  | colRef
  | lenOf
deriving DecidableEq, Repr

/-- A compiled static-metric SQL expression (aggregate head and argument). -/
structure CompiledExpr where
  fn : AggFn
  arg : ColArg
deriving DecidableEq, Repr

/-- `Mean.fn` (static/mean.py): `avg(col)` for quantifiable columns,
`avg(LenFn(col))` for concatenable columns, `None` otherwise. -/
def Mean.fn : TypeFamily → Option CompiledExpr
  | .quantifiable => some ⟨.avg, .colRef⟩
  | .concatenable => some ⟨.avg, .lenOf⟩
  | _ => none

/-- `Min.fn` (static/min.py): concatenable columns are checked first and get
`MinFn(LenFn(col))`; then a column that is neither quantifiable nor
date-time gets `None`; otherwise `MinFn(col)`. -/
def Min.fn : TypeFamily → Option CompiledExpr
  | .concatenable => some ⟨.minF, .lenOf⟩
  | .quantifiable => some ⟨.minF, .colRef⟩
  | .dateTime => some ⟨.minF, .colRef⟩
  | .other => none

/-- `Sum.fn` (static/sum.py): `SumFn(col)` for quantifiable columns,
`SumFn(LenFn(col))` for concatenable columns, `None` otherwise. -/
def Sum.fn : TypeFamily → Option CompiledExpr
  | .quantifiable => some ⟨.sumF, .colRef⟩
  | .concatenable => some ⟨.sumF, .lenOf⟩
  | _ => none

/-- `StdDev.fn` (static/stddev.py): `StdDevFn(col)` for quantifiable
columns, `StdDevFn(LenFn(col))` for concatenable columns, `None`
otherwise. -/
def StdDev.fn : TypeFamily → Option CompiledExpr
  | .quantifiable => some ⟨.stddevF, .colRef⟩
  | .concatenable => some ⟨.stddevF, .lenOf⟩
  | _ => none

/-- The four static metrics embedded here. -/
inductive MetricKind where
  | mean
  | minK
  | sumK
  | stddev
deriving DecidableEq, Repr

/-- Dispatch a metric kind to its source `fn`. -/
def compileMetric : MetricKind → TypeFamily → Option CompiledExpr
  | .mean => Mean.fn
  | .minK => Min.fn
  | .sumK => Sum.fn
  | .stddev => StdDev.fn

/-- Which type families a metric supports, read off the guards of each
source `fn` (the `is_quantifiable` / `is_concatenable` / `is_date_time`
tests in mean.py, min.py, sum.py, stddev.py). -/
def metricSupports : MetricKind → TypeFamily → Bool
  | .mean, .quantifiable => true
  | .mean, .concatenable => true
  | .minK, .quantifiable => true
  | .minK, .concatenable => true
  | .minK, .dateTime => true
  | .sumK, .quantifiable => true
  | .sumK, .concatenable => true
  | .stddev, .quantifiable => true
  | .stddev, .concatenable => true
  | _, _ => false

/-- Modelled from the spec: the caller (profiler processor core, not under
src/) collects the compiled expressions of a metric list and skips the
not-applicable (`none`) ones silently. -/
def applicableExprs (ms : List MetricKind) (fam : TypeFamily) : List CompiledExpr :=
  ms.filterMap (fun m => compileMetric m fam)

/-- Length transform applied by `LenFn` before a numeric aggregate on a
concatenable column: each string value becomes its length. -/
def lenTransform (vals : List String) : List ℚ :=
  vals.map (fun s => (s.length : ℚ))

/-- SQL `AVG` semantics over the non-null values of a column: `NULL` on an
empty column, otherwise the arithmetic mean. -/
def sqlAvg (xs : List ℚ) : Option ℚ :=
  if xs.isEmpty then none else some (xs.sum / (xs.length : ℚ))

/-- Shape of the SQL emitted for `MedianFn` per dialect
(orm/functions/median.py), carrying the requested percentile. -/
inductive MedianSql where
  | percentileCont (p : ℚ)
  | bigqueryPercentileContOver (p : ℚ)
  | clickhouseQuantile (p : ℚ)
  | approxPercentile (p : ℚ)
  | mssqlPercentileContOver (p : ℚ)
  | hivePercentile (p : ℚ)
  | impalaApproxMedian (p : ℚ)
  | mysqlRanked (p : ℚ)
  | sqliteRanked (p : ℚ)
deriving DecidableEq, Repr

/-- `MedianFn` compilation: the `@compiles(MedianFn, ...)` hooks of
median.py select the strategy purely from the dialect identifier; every
dialect without a registered override falls back to
`percentile_cont(p) WITHIN GROUP (ORDER BY col ASC)`. -/
def MedianFn.compile (d : Dialect) (p : ℚ) : MedianSql :=
  match d with
  | .bigquery => .bigqueryPercentileContOver p
  | .clickhouse => .clickhouseQuantile p
  | .athena => .approxPercentile p
  | .trino => .approxPercentile p
  | .presto => .approxPercentile p
  | .mssql => .mssqlPercentileContOver p
  | .hive => .hivePercentile p
  | .impala => .impalaApproxMedian p
  | .mysql => .mysqlRanked p
  | .sqlite => .sqliteRanked p
  | _ => .percentileCont p

/-- The OFFSET value of the SQLite ranked subquery emitted by median.py:
`OFFSET (SELECT ROUND(COUNT(*) * p - 1) ...)` over the non-null rows. -/
def sqliteRankedOffset (count : ℚ) (p : ℚ) : ℤ :=
  round (count * p - 1)

/-- Offset formula as the spec sentence words it: `round(count * p)`.
This definition follows the spec, to be compared with
`sqliteRankedOffset`, which follows the source. -/
def specSqliteOffset (count : ℚ) (p : ℚ) : ℤ :=
  round (count * p)

/-- Sampling configuration (`ProfileSampleConfig`): a percentage in
(0,100] or an absolute row count, mutually exclusive.  Modelled from the
spec: the api/models module is not under src/; sampler.py reads
`profile_sample_type` and `profile_sample` from it. -/
inductive ProfileSampleConfig where
  | percentage (p : ℚ)
  | rowCount (n : Nat)
deriving DecidableEq, Repr

/-- Python truthiness of `self.profile_sample`: falsy when no config was
given or when the configured number is zero
(`if not self.profile_sample:` in `random_sample`). -/
def profileSampleTruthy : Option ProfileSampleConfig → Bool
  | none => false
  | some (.percentage p) => p ≠ 0
  | some (.rowCount n) => n ≠ 0

/-- Partition interval kinds (`PartitionIntervalType`). -/
inductive PartitionIntervalType where
  | columnValue
  | integerRange
  | timeWindow
deriving DecidableEq, Repr

/-- Partition configuration (`PartitionProfilerConfig`) restricted to the
fields `_partitioned_table` reads: the partition column and, per interval
kind, a value list, an integer range, or a time-window cutoff. -/
structure PartitionProfilerConfig where
  partitionColumnName : String
  intervalType : PartitionIntervalType
  partitionValues : List Value
  rangeStart : Int
  rangeEnd : Int
  windowStart : Int
deriving DecidableEq, Repr

/-- The row predicate of the partition filter built by `_partitioned_table`.
Modelled from the spec for the helpers not under src/ (`get_value_filter`,
`get_integer_range_filter`, `build_query_filter` in utils/sqa_utils):
a column-value set membership test, an inclusive integer range test, or a
`>=` time-window cutoff, on the named partition column. -/
def partitionFilter (cfg : PartitionProfilerConfig) (r : Row) : Bool :=
  match cfg.intervalType with
  | .columnValue =>
    match dictGet r cfg.partitionColumnName with
    | some v => cfg.partitionValues.contains v
    | none => false
  | .integerRange =>
    match dictGet r cfg.partitionColumnName with
    | some (.int v) => cfg.rangeStart ≤ v && v ≤ cfg.rangeEnd
    | _ => false
  | .timeWindow =>
    match dictGet r cfg.partitionColumnName with
    | some (.int v) => cfg.windowStart ≤ v
    | _ => false

/-- `_partitioned_table`: the aliased subquery keeping exactly the rows
matching the partition filter. -/
def partitionedTable (cfg : PartitionProfilerConfig) (rows : List Row) : List Row :=
  rows.filter (partitionFilter cfg)

/-- `get_sample_query` (sampler.py): in percentage mode label each row with
`modulo(random(), 100)` and keep rows whose label is `<=` the percentage;
in row-count mode label each row with
`modulo(random(), <total row count>)`, order by the label, and take the
first `n` rows.  `rand` models the per-row value of `RandomNumFn`. -/
def get_sample_query (cfg : ProfileSampleConfig) (rand : Row → Nat)
    (rows : List Row) : List Row :=
  match cfg with
  | .percentage p =>
    rows.filter (fun r => ((rand r % 100 : Nat) : ℚ) ≤ p)
  | .rowCount n =>
    let total := rows.length
    let labelled := rows.map (fun r => (r, rand r % total))
    (((labelled.insertionSort (fun a b => a.2 ≤ b.2)).map (fun x => x.1)).take n)

/-- The rows visible to `get_sample_query` after the
`@partition_filter_handler(build_sample=True)` decorator.  Modelled from
the spec: handle_partition.py is not under src/; the spec states the
partition filter is applied prior to any row/percentage sampling. -/
def sampleQueryInput (partition : Option PartitionProfilerConfig)
    (rows : List Row) : List Row :=
  match partition with
  | some cfg => partitionedTable cfg rows
  | none => rows

/-- `random_sample` (sampler.py): a user-supplied profile query is used
verbatim; otherwise with a falsy sample size the result is the partitioned
table (when a partition is configured) or the full table; otherwise the
sampled CTE built by `get_sample_query`. -/
def random_sample (userQuery : Option (List Row))
    (partition : Option PartitionProfilerConfig)
    (sampleConfig : Option ProfileSampleConfig)
    (rand : Row → Nat) (rows : List Row) : List Row :=
  match userQuery with
  | some q => q
  | none =>
    if profileSampleTruthy sampleConfig then
      match sampleConfig with
      | some cfg => get_sample_query cfg rand (sampleQueryInput partition rows)
      | none => rows
    else
      match partition with
      | some cfg => partitionedTable cfg rows
      | none => rows

/-- `TableData`: column names plus row values, as returned by
`fetch_sample_data`. -/
structure TableData where
  columns : List String
  rows : List (List Value)
deriving DecidableEq, Repr

/-- Result of executing a literal user query: the cursor's column
description and its result rows. -/
structure UserQueryResult where
  cols : List String
  resultRows : List (List Value)
deriving DecidableEq, Repr

/-- `_fetch_sample_data_from_user_query`: execute the user's query and
return its columns with `fetchmany(100)` rows. -/
def fetch_sample_data_from_user_query (q : UserQueryResult) : TableData :=
  ⟨q.cols, q.resultRows.take 100⟩

/-- `fetch_sample_data` (sampler.py): with a user-supplied profile query,
return that query's preview rows; otherwise project the sampled rows onto
the table's columns (the random label is dropped) and cap at the
`sample_limit` of 100 set in `SamplerInterface.__init__`. -/
def fetch_sample_data (userQuery : Option UserQueryResult)
    (tableCols : List String) (sampledRows : List Row) : TableData :=
  match userQuery with
  | some q => fetch_sample_data_from_user_query q
  | none =>
    ⟨tableCols,
      (sampledRows.map (fun r => tableCols.map (fun c => (dictGet r c).getD .null))).take 100⟩

/-- Names of the metrics a Static work unit may carry. `median` stands for
the window metrics filtered out by `is_window_metric()`. -/
inductive MetricName where
  | minM
  | maxM
  | meanM
  | sumM
  | stddevM
  | countM
  | medianM
deriving DecidableEq, Repr, Fintype

/-- The label under which each metric's value appears in the result row
(the `_label` decorator labels the expression with the metric name). -/
def metricLabel : MetricName → String
  | .minM => "min"
  | .maxM => "max"
  | .meanM => "mean"
  | .sumM => "sum"
  | .stddevM => "stddev"
  | .countM => "valuesCount"
  | .medianM => "median"

/-- `metric.is_window_metric()`: true for the window metrics, stood for
here by `median`.  Modelled from the spec for the taxonomy module not
under src/. -/
def isWindowMetric : MetricName → Bool
  | .medianM => true
  | _ => false

/-- Membership in the excluded set `{Sum, StdDev, Mean}` of
`_compute_static_metrics_wo_sum`. -/
def inSumStdDevMean : MetricName → Bool
  | .sumM => true
  | .stddevM => true
  | .meanM => true
  | _ => false

/-- The row produced by `select_first_from_sample` for a Static unit: one
labelled value per non-window metric (`val` models what the database
returns for each metric's expression). -/
def staticSelectRow (metrics : List MetricName) (val : MetricName → Value) : Row :=
  (metrics.filter (fun m => !isWindowMetric m)).map (fun m => (metricLabel m, val m))

/-- The row produced by the degraded retry of
`_compute_static_metrics_wo_sum`: the same statement without the window
metrics and without `Sum`, `StdDev`, `Mean`. -/
def woSumSelectRow (metrics : List MetricName) (val : MetricName → Value) : Row :=
  (metrics.filter (fun m => !isWindowMetric m && !inSumStdDevMean m)).map
    (fun m => (metricLabel m, val m))

/-- `OVERFLOW_ERROR_CODES` (profiler_interface.py): only Snowflake has
registered overflow error codes; `.get` on any other dialect name yields
`None`. -/
def OVERFLOW_ERROR_CODES : Dialect → Option (List Nat)
  | .snowflake => some [100046, 100058]
  | _ => none

/-- The session threaded through a work unit; only its rollback flag is
observable here. -/
structure SessionState where
  rolledBack : Bool
deriving DecidableEq, Repr

/-- Exceptions escaping `_get_metrics`: the `RuntimeError` re-raised by
`handle_query_exception`, and the `TypeError` of evaluating
`errno in None` when the active dialect has no overflow codes. -/
inductive PyError where
  | runtimeError
  | typeError
deriving DecidableEq, Repr

/-- Display name of an escaping exception, for the recorded failure. -/
def errName : PyError → String
  | .runtimeError => "RuntimeError"
  | .typeError => "TypeError"

/-- `handle_query_exception` (profiler_interface.py): log, roll back the
unit's session, and re-raise as `RuntimeError`. -/
def handle_query_exception (s : SessionState) :
    SessionState × Except PyError (Option Row) :=
  ({ s with rolledBack := true }, .error .runtimeError)

/-- Outcome of one database round trip for a Static statement: success, a
`ProgrammingError` whose `orig` may carry an errno (`none` models a falsy
`exc.orig`), or any other exception. -/
inductive AttemptOutcome where
  | succeeds
  | programmingError (orig : Option Nat)
  | otherError
deriving DecidableEq, Repr

/-- `_compute_static_metrics_wo_sum`: rerun the statement without
`Sum`/`StdDev`/`Mean`; on any exception defer to `handle_query_exception`. -/
def compute_static_metrics_wo_sum (metrics : List MetricName)
    (val : MetricName → Value) (retry : AttemptOutcome) (s : SessionState) :
    SessionState × Except PyError (Option Row) :=
  match retry with
  | .succeeds => (s, .ok (some (woSumSelectRow metrics val)))
  | _ => handle_query_exception s

/-- The `MetricTypes.Static` branch of `_get_metrics`: on success, the full
row; on a `ProgrammingError` whose errno is among the active dialect's
overflow codes, the degraded retry; on a `ProgrammingError` for a dialect
with no registered codes, the `TypeError` of `errno in None` escapes
without rollback; on a `ProgrammingError` with falsy `orig` or an errno
outside the codes, fall through to `return None`; on any other exception,
`handle_query_exception`. -/
def getMetricsStatic (dialect : Dialect) (metrics : List MetricName)
    (val : MetricName → Value) (first retry : AttemptOutcome)
    (s : SessionState) : SessionState × Except PyError (Option Row) :=
  match first with
  | .succeeds => (s, .ok (some (staticSelectRow metrics val)))
  | .programmingError orig =>
    match orig with
    | some errno =>
      match OVERFLOW_ERROR_CODES dialect with
      | some codes =>
        if errno ∈ codes then
          compute_static_metrics_wo_sum metrics val retry s
        else
          (s, .ok none)
      | none => (s, .error .typeError)
    | none => (s, .ok none)
  | .otherError => handle_query_exception s

/-- One recorded failure (`StackTraceError` in status.py, stack trace
elided). -/
structure StackTraceError where
  name : String
  error : String
deriving DecidableEq, Repr

/-- `ProfilerProcessorStatus` (processor.py): scanned records, warnings and
failures, appended to during a run. -/
structure ProfilerProcessorStatus where
  entity : Option String
  records : List String
  warnings : List String
  failures : List StackTraceError
deriving DecidableEq, Repr

/-- `ProfilerProcessorStatus.scanned`: append the identifier to `records`. -/
def ProfilerProcessorStatus.scanned (ps : ProfilerProcessorStatus)
    (r : String) : ProfilerProcessorStatus :=
  { ps with records := ps.records ++ [r] }

/-- `ProfilerProcessorStatus.failed_profiler`: append a failure named after
the current entity. -/
def ProfilerProcessorStatus.failed_profiler (ps : ProfilerProcessorStatus)
    (error : String) : ProfilerProcessorStatus :=
  { ps with failures := ps.failures ++ [⟨ps.entity.getD "", error⟩] }

/-- What one work unit hands back to `get_all_metrics`:
`(row, column_name_or_none, metric_type)`. -/
structure UnitResult where
  profile : Option Row
  column : Option String
  metricType : MetricType
deriving DecidableEq, Repr

/-- `compute_metrics_in_thread` (profiler_interface.py): run `_get_metrics`
(abstracted as `getMetrics`); any escaping exception is logged, recorded
via `failed_profiler`, and the row becomes `None`; then the unit is marked
scanned — `table.column` for column units, the table name otherwise — and
`(row, column, metric_type)` is returned. -/
def compute_metrics_in_thread (tableName : String) (column : Option String)
    (metricType : MetricType)
    (getMetrics : SessionState → SessionState × Except PyError (Option Row))
    (s : SessionState) (ps : ProfilerProcessorStatus) :
    SessionState × ProfilerProcessorStatus × UnitResult :=
  let res := getMetrics s
  let rowPs : Option Row × ProfilerProcessorStatus :=
    match res.2 with
    | .ok r => (r, ps)
    | .error e =>
      (none,
        ps.failed_profiler
          ((column.getD tableName) ++ " metric_type.value: " ++ errName e))
  match column with
  | some c => (res.1, (rowPs.2.scanned (tableName ++ "." ++ c)), ⟨rowPs.1, some c, metricType⟩)
  | none => (res.1, (rowPs.2.scanned tableName), ⟨rowPs.1, none, metricType⟩)

/-- The identifier appended to the scanned records by
`compute_metrics_in_thread`: `table.column` for a column unit, the bare
table name otherwise. -/
def scanIdentifier (tableName : String) : Option String → String
  | some c => tableName ++ "." ++ c
  | none => tableName

/-- The aggregate result assembled by `get_all_metrics`: the `table` map,
the `columns` map (a `defaultdict(dict)` keyed by column name), and the
`system` entry, absent until a System unit completes. -/
structure ProfileResults where
  table : Row
  columns : List (Option String × Row)
  system : Option (Option Row)
deriving DecidableEq, Repr

/-- The initial `{"table": dict(), "columns": defaultdict(dict)}`. -/
def emptyProfileResults : ProfileResults :=
  ⟨[], [], none⟩

/-- `defaultdict(dict)` read: the stored dict for the key, or a fresh empty
one. -/
def colsGet (cs : List (Option String × Row)) (k : Option String) : Row :=
  ((cs.find? (fun p => p.1 = k)).map (fun p => p.2)).getD []

/-- Store a column's dict back, overwriting in place or appending. -/
def colsSet (cs : List (Option String × Row)) (k : Option String) (r : Row) :
    List (Option String × Row) :=
  if cs.any (fun p => p.1 = k) then
    cs.map (fun p => if p.1 = k then (k, r) else p)
  else
    cs ++ [(k, r)]

/-- A Python value that may be `None` (the column name in the
annotation dict). -/
def Value.ofOptStr : Option String → Value
  | some s => .str s
  | none => .null

/-- The `{"name": column, "timestamp": ...}` payload merged into a column's
entry by `get_all_metrics`. -/
def annotRow (column : Option String) (ts : Int) : Row :=
  [("name", Value.ofOptStr column), ("timestamp", .int ts)]

/-- One iteration of the aggregation loop of `get_all_metrics`: a non-dict
profile of a non-System unit is normalised to an empty dict; a Table unit
merges into `table`; a System unit's profile is assigned to `system`
unnormalised; every other unit merges `{"name", "timestamp", **profile}`
into `columns[column]`. -/
def aggStep (ts : Int) (s : ProfileResults) (u : UnitResult) : ProfileResults :=
  let profile := if u.metricType = .System then u.profile else some (u.profile.getD [])
  if u.metricType = .Table then
    { s with table := dictUpdate s.table (profile.getD []) }
  else if u.metricType = .System then
    { s with system := some profile }
  else
    { s with
      columns :=
        colsSet s.columns u.column
          (dictUpdate (colsGet s.columns u.column)
            (dictUpdate (annotRow u.column ts) (profile.getD []))) }

/-- `get_all_metrics` (profiler_interface.py): fold the aggregation step
over the completed futures' results in order. -/
def get_all_metrics (ts : Int) (results : List UnitResult) : ProfileResults :=
  results.foldl (aggStep ts) emptyProfileResults

/-!  Helper lemmas shared by the claim theorems. -/

/-- The metric labels are pairwise distinct. -/
theorem metricLabel_inj : ∀ a b : MetricName, metricLabel a = metricLabel b → a = b := by
  decide

/-- Python dict lookup on a cons cell. -/
theorem dictGet_cons (k k' : String) (v : Value) (d : Row) :
    dictGet ((k', v) :: d) k = if k' = k then some v else dictGet d k := by
  by_cases hk : k' = k
  · simp [dictGet, List.find?_cons_of_pos, hk]
  · simp [dictGet, List.find?_cons_of_neg, hk]

/-- Lookup of a key carried by none of the labelled metric entries. -/
theorem dictGet_map_label_eq_none (l : List MetricName) (val : MetricName → Value)
    (k : String) (hk : ∀ m ∈ l, metricLabel m ≠ k) :
    dictGet (l.map (fun m => (metricLabel m, val m))) k = none := by
  induction l with
  | nil => rfl
  | cons a t ih =>
    rw [List.map_cons, dictGet_cons, if_neg (hk a (List.mem_cons_self a t))]
    exact ih (fun m hm => hk m (List.mem_cons_of_mem a hm))

/-- Lookup of a metric's own label among the labelled metric entries. -/
theorem dictGet_map_label_of_mem (l : List MetricName) (val : MetricName → Value)
    (m : MetricName) (hm : m ∈ l) :
    dictGet (l.map (fun m => (metricLabel m, val m))) (metricLabel m) = some (val m) := by
  induction l with
  | nil => cases hm
  | cons a t ih =>
    rw [List.map_cons, dictGet_cons]
    by_cases hl : metricLabel a = metricLabel m
    · cases metricLabel_inj a m hl
      rw [if_pos rfl]
    · rw [if_neg hl]
      rcases List.mem_cons.1 hm with rfl | h
      · exact absurd rfl hl
      · exact ih h

/-- The degraded retry row has no entry at all for a metric in the excluded
set `{Sum, StdDev, Mean}`. -/
theorem woSum_label_none (metrics : List MetricName) (val : MetricName → Value)
    (m0 : MetricName) (h0 : inSumStdDevMean m0 = true) :
    dictGet (woSumSelectRow metrics val) (metricLabel m0) = none := by
  unfold woSumSelectRow
  apply dictGet_map_label_eq_none
  intro m hm hlab
  have hpred := (List.mem_filter.1 hm).2
  cases metricLabel_inj m m0 hlab
  simp [h0] at hpred

/-- Membership in the sampled rows implies membership in the sampler's
input rows, for both percentage and row-count mode. -/
theorem mem_get_sample_query {c : ProfileSampleConfig} {rand : Row → Nat}
    {xs : List Row} {r : Row} (h : r ∈ get_sample_query c rand xs) : r ∈ xs := by
  cases c with
  | percentage p =>
    simp only [get_sample_query] at h
    exact List.mem_of_mem_filter h
  | rowCount n =>
    simp only [get_sample_query] at h
    have h1 := List.take_subset _ _ h
    obtain ⟨pr, hpr, heq⟩ := List.mem_map.1 h1
    have h2 : pr ∈ xs.map (fun r => (r, rand r % xs.length)) :=
      (List.perm_insertionSort _ _).subset hpr
    obtain ⟨a, ha, rfl⟩ := List.mem_map.1 h2
    simp only at heq
    exact heq ▸ ha

/-!  Claim theorems. -/

/-- Claim C6 (confirmed): for every embedded static metric and every column
type family the metric does not support, compilation returns
not-applicable (`none`) — never an exception, since the compile functions
are total — and the caller's compiled-expression list skips the metric
silently. -/
theorem unsupported_type_family_not_applicable (m : MetricKind) (fam : TypeFamily)
    (h : metricSupports m fam = false) :
    compileMetric m fam = none ∧ applicableExprs [m] fam = [] := by
  revert h
  cases m <;> cases fam <;> decide

/-- Witness for C6: the mean metric does not support date-time columns and
compiles to not-applicable there. -/
theorem unsupported_type_family_not_applicable_witness :
    metricSupports MetricKind.mean TypeFamily.dateTime = false ∧
    (compileMetric MetricKind.mean TypeFamily.dateTime = none ∧
      applicableExprs [MetricKind.mean] TypeFamily.dateTime = []) :=
  ⟨by decide, unsupported_type_family_not_applicable MetricKind.mean TypeFamily.dateTime (by decide)⟩

/-- Claim C7 (confirmed): on a concatenable column, mean, sum and stddev
compile to the numeric aggregate over the `LenFn` length transform, and
SQL `AVG` over the lengths of the values "a", "bb", "ccc" is 2. -/
theorem concatenable_metrics_length_transform :
    Mean.fn .concatenable = some ⟨.avg, .lenOf⟩ ∧
    Sum.fn .concatenable = some ⟨.sumF, .lenOf⟩ ∧
    StdDev.fn .concatenable = some ⟨.stddevF, .lenOf⟩ ∧
    sqlAvg (lenTransform ["a", "bb", "ccc"]) = some 2 := by
  refine ⟨rfl, rfl, rfl, ?_⟩
  have h1 : ("a" : String).length = 1 := rfl
  have h2 : ("bb" : String).length = 2 := rfl
  have h3 : ("ccc" : String).length = 3 := rfl
  simp [sqlAvg, lenTransform, h1, h2, h3]
  norm_num

/-- Claim C8 counterexample: for the SQLite median at percentile 1/2 over
10 non-null rows, the source's ranked subquery offset
round(count*p - 1) = 4, while the claim's formula round(count*p) = 5. -/
theorem median_sqlite_offset_cex :
    MedianFn.compile .sqlite (1/2) = .sqliteRanked (1/2) ∧
    sqliteRankedOffset 10 (1/2) = 4 ∧
    specSqliteOffset 10 (1/2) = 5 ∧
    sqliteRankedOffset 10 (1/2) ≠ specSqliteOffset 10 (1/2) := by
  refine ⟨rfl, ?_, ?_, ?_⟩ <;>
    norm_num [sqliteRankedOffset, specSqliteOffset, round_eq]

/-- Claim C8 as amended (the SQLite offset is round(count*p - 1), not
round(count*p)): median strategy is a pure function of the dialect
identifier — dialects without an override emit
percentile_cont WITHIN GROUP, Athena/Trino/Presto emit approx_percentile,
and SQLite emits the hand-built ranked subquery whose OFFSET is
round(count*p - 1). -/
theorem median_dialect_strategy (p count : ℚ) :
    MedianFn.compile .postgres p = .percentileCont p ∧
    MedianFn.compile .snowflake p = .percentileCont p ∧
    MedianFn.compile .athena p = .approxPercentile p ∧
    MedianFn.compile .trino p = .approxPercentile p ∧
    MedianFn.compile .presto p = .approxPercentile p ∧
    MedianFn.compile .sqlite p = .sqliteRanked p ∧
    sqliteRankedOffset count p = round (count * p - 1) :=
  ⟨rfl, rfl, rfl, rfl, rfl, rfl, rfl⟩

/-- Claim C9 (confirmed): each completed unit result is routed by metric
type — a Table result merges into the `table` map only, a System result is
assigned (unnormalised) to `system` only, and Static/Query/Window results
merge `{"name": column, "timestamp": ts, **profile}` into
`columns[column]` only. -/
theorem get_all_metrics_routing (ts : Int) (s : ProfileResults)
    (p : Option Row) (c : Option String) :
    (aggStep ts s ⟨p, c, .Table⟩).table = dictUpdate s.table (p.getD []) ∧
    (aggStep ts s ⟨p, c, .Table⟩).columns = s.columns ∧
    (aggStep ts s ⟨p, c, .Table⟩).system = s.system ∧
    (aggStep ts s ⟨p, c, .System⟩).system = some p ∧
    (aggStep ts s ⟨p, c, .System⟩).table = s.table ∧
    (aggStep ts s ⟨p, c, .System⟩).columns = s.columns ∧
    (aggStep ts s ⟨p, c, .Static⟩).columns =
      colsSet s.columns c
        (dictUpdate (colsGet s.columns c) (dictUpdate (annotRow c ts) (p.getD []))) ∧
    (aggStep ts s ⟨p, c, .Static⟩).table = s.table ∧
    (aggStep ts s ⟨p, c, .Static⟩).system = s.system ∧
    (aggStep ts s ⟨p, c, .Query⟩).columns =
      colsSet s.columns c
        (dictUpdate (colsGet s.columns c) (dictUpdate (annotRow c ts) (p.getD []))) ∧
    (aggStep ts s ⟨p, c, .Window⟩).columns =
      colsSet s.columns c
        (dictUpdate (colsGet s.columns c) (dictUpdate (annotRow c ts) (p.getD []))) := by
  simp [aggStep]

/-- Claim C10 (confirmed): every work unit processed by
`compute_metrics_in_thread` appends its identifier (table name, or
table.column for column units) to the scanned records, whatever the
outcome of the metric computation — including when it raised and a failure
was recorded. -/
theorem compute_metrics_in_thread_always_scans
    (tableName : String) (column : Option String) (mt : MetricType)
    (getMetrics : SessionState → SessionState × Except PyError (Option Row))
    (s : SessionState) (ps : ProfilerProcessorStatus) :
    (compute_metrics_in_thread tableName column mt getMetrics s ps).2.1.records =
      ps.records ++ [scanIdentifier tableName column] := by
  unfold compute_metrics_in_thread
  cases column <;> cases hr : (getMetrics s).2 <;>
    simp [hr, scanIdentifier, ProfilerProcessorStatus.scanned,
      ProfilerProcessorStatus.failed_profiler]

/-- Claim C5 (confirmed): with a caller-supplied literal profile query, the
sampler uses the query's result verbatim — ignoring any partition and any
row-count or percentage configuration — and `fetch_sample_data` returns
that query's preview rows capped at 100. -/
theorem user_query_verbatim_and_capped
    (q : List Row) (qr : UserQueryResult)
    (partition : Option PartitionProfilerConfig)
    (cfg : Option ProfileSampleConfig) (rand : Row → Nat) (rows : List Row)
    (tableCols : List String) (sampledRows : List Row) :
    random_sample (some q) partition cfg rand rows = q ∧
    fetch_sample_data (some qr) tableCols sampledRows =
      ⟨qr.cols, qr.resultRows.take 100⟩ ∧
    (fetch_sample_data (some qr) tableCols sampledRows).rows.length ≤ 100 := by
  refine ⟨rfl, rfl, ?_⟩
  simp [fetch_sample_data, fetch_sample_data_from_user_query]

/-- Claim C3 counterexample: a row-count configuration of N = 0 on a
one-row table (0 ≤ total row count) is falsy in Python, so `random_sample`
skips sampling and returns the full table — 1 row, not exactly N = 0. -/
theorem row_count_zero_cex :
    random_sample none none (some (.rowCount 0)) (fun _ => 0)
        [[("id", Value.int 1)]] = [[("id", Value.int 1)]] ∧
    ([[("id", Value.int 1)]] : List Row).length ≠ 0 := by
  exact ⟨rfl, by decide⟩

/-- Claim C3 as amended (exactness holds for N ≥ 1; N = 0 is treated as
falsy and disables sampling): for every row-count configuration with
1 ≤ N ≤ total row count, `random_sample` — which labels each row with
modulo(random(), total row count), orders by the label and takes the first
N rows — returns exactly N rows. -/
theorem row_count_sample_exact (rand : Row → Nat) (rows : List Row) (n : Nat)
    (h1 : 1 ≤ n) (h2 : n ≤ rows.length) :
    (random_sample none none (some (.rowCount n)) rand rows).length = n := by
  have hne : n ≠ 0 := by omega
  simp [random_sample, profileSampleTruthy, hne, sampleQueryInput,
    get_sample_query, List.length_take, List.length_insertionSort]
  omega

/-- Witness for C3 as amended: N = 2 on a three-row table yields exactly
two rows. -/
theorem row_count_sample_exact_witness :
    1 ≤ 2 ∧
    2 ≤ ([[("id", Value.int 1)], [("id", Value.int 2)], [("id", Value.int 3)]] : List Row).length ∧
    (random_sample none none (some (.rowCount 2)) (fun _ => 0)
        [[("id", Value.int 1)], [("id", Value.int 2)], [("id", Value.int 3)]]).length = 2 :=
  ⟨by decide, by decide,
    row_count_sample_exact (fun _ => 0) _ 2 (by decide) (by decide)⟩

/-- Claim C4 (confirmed): for every partition configuration (column-value
list, integer range or time window) combined with any sampling
configuration, every row of the returned sample satisfies the partition
filter and comes from the original table:
sample(partition_filter(T)) ⊆ partition_filter(T). -/
theorem sample_subset_of_partition
    (cfg : PartitionProfilerConfig) (sampleCfg : Option ProfileSampleConfig)
    (rand : Row → Nat) (rows : List Row) (r : Row)
    (h : r ∈ random_sample none (some cfg) sampleCfg rand rows) :
    partitionFilter cfg r = true ∧ r ∈ rows := by
  cases sampleCfg with
  | none =>
    simp only [random_sample, profileSampleTruthy, Bool.false_eq_true, if_false,
      partitionedTable] at h
    exact ⟨(List.mem_filter.1 h).2, (List.mem_filter.1 h).1⟩
  | some c =>
    by_cases ht : profileSampleTruthy (some c) = true
    · simp only [random_sample, ht, if_true] at h
      have h2 : r ∈ sampleQueryInput (some cfg) rows := mem_get_sample_query h
      simp only [sampleQueryInput, partitionedTable] at h2
      exact ⟨(List.mem_filter.1 h2).2, (List.mem_filter.1 h2).1⟩
    · simp only [random_sample] at h
      rw [if_neg ht] at h
      simp only [partitionedTable] at h
      exact ⟨(List.mem_filter.1 h).2, (List.mem_filter.1 h).1⟩

/-- Witness for C4: a column-value partition on column p with a row-count
sample of 1; the returned row satisfies the partition filter. -/
theorem sample_subset_of_partition_witness :
    ([("p", Value.int 1)] ∈ random_sample none
        (some ⟨"p", .columnValue, [Value.int 1], 0, 0, 0⟩)
        (some (.rowCount 1)) (fun _ => 0) [[("p", Value.int 1)]]) ∧
    (partitionFilter ⟨"p", .columnValue, [Value.int 1], 0, 0, 0⟩ [("p", Value.int 1)] = true ∧
      [("p", Value.int 1)] ∈ ([[("p", Value.int 1)]] : List Row)) :=
  ⟨by decide,
    sample_subset_of_partition ⟨"p", .columnValue, [Value.int 1], 0, 0, 0⟩
      (some (.rowCount 1)) (fun _ => 0) [[("p", Value.int 1)]] [("p", Value.int 1)]
      (by decide)⟩

/-- Claim C2 counterexample: on Snowflake, a Static unit over
[min, sum, mean, stddev] hits overflow errno 100046 and the retry
succeeds; the returned row is [("min", 7)] — the key sum is missing
entirely, not an explicit null. -/
theorem overflow_retry_null_keys_cex :
    (getMetricsStatic .snowflake [.minM, .sumM, .meanM, .stddevM] (fun _ => Value.int 7)
        (.programmingError (some 100046)) .succeeds ⟨false⟩).2 =
      .ok (some [("min", Value.int 7)]) ∧
    dictGet [("min", Value.int 7)] ("sum") = none ∧
    dictGet [("min", Value.int 7)] ("sum") ≠ some Value.null := by
  refine ⟨rfl, by decide, by decide⟩

/-- Claim C2 as amended (the degraded metrics are missing keys, not
explicit nulls): on a Static unit hitting a dialect-registered
numeric-overflow errno, the statement is retried excluding sum, mean and
stddev; the returned row contains every remaining non-window metric and
has no key at all for sum, mean or stddev. -/
theorem overflow_retry_missing_keys
    (metrics : List MetricName) (val : MetricName → Value)
    (errno : Nat) (s : SessionState)
    (h : errno ∈ [100046, 100058]) :
    getMetricsStatic .snowflake metrics val (.programmingError (some errno)) .succeeds s =
      (s, .ok (some (woSumSelectRow metrics val))) ∧
    dictGet (woSumSelectRow metrics val) ("sum") = none ∧
    dictGet (woSumSelectRow metrics val) ("mean") = none ∧
    dictGet (woSumSelectRow metrics val) ("stddev") = none ∧
    (∀ m ∈ metrics, isWindowMetric m = false → inSumStdDevMean m = false →
      dictGet (woSumSelectRow metrics val) (metricLabel m) = some (val m)) := by
  refine ⟨?_, ?_, ?_, ?_, ?_⟩
  · have hstep : getMetricsStatic .snowflake metrics val
        (.programmingError (some errno)) .succeeds s =
        if errno ∈ [100046, 100058] then
          compute_static_metrics_wo_sum metrics val .succeeds s
        else
          (s, .ok none) := rfl
    rw [hstep, if_pos h]
    rfl
  · exact woSum_label_none metrics val .sumM rfl
  · exact woSum_label_none metrics val .meanM rfl
  · exact woSum_label_none metrics val .stddevM rfl
  · intro m hm hw hs
    unfold woSumSelectRow
    apply dictGet_map_label_of_mem
    exact List.mem_filter.2 ⟨hm, by simp [hw, hs]⟩

/-- Witness for C2 as amended: errno 100046 on [min, sum]; the retry row
keeps min and has no sum key. -/
theorem overflow_retry_missing_keys_witness :
    100046 ∈ [100046, 100058] ∧
    (getMetricsStatic .snowflake [.minM, .sumM] (fun _ => Value.int 7)
        (.programmingError (some 100046)) .succeeds ⟨false⟩ =
      (⟨false⟩, .ok (some (woSumSelectRow [.minM, .sumM] (fun _ => Value.int 7)))) ∧
    dictGet (woSumSelectRow [.minM, .sumM] (fun _ => Value.int 7)) ("sum") = none ∧
    dictGet (woSumSelectRow [.minM, .sumM] (fun _ => Value.int 7)) ("mean") = none ∧
    dictGet (woSumSelectRow [.minM, .sumM] (fun _ => Value.int 7)) ("stddev") = none ∧
    (∀ m ∈ [MetricName.minM, MetricName.sumM], isWindowMetric m = false →
      inSumStdDevMean m = false →
      dictGet (woSumSelectRow [.minM, .sumM] (fun _ => Value.int 7)) (metricLabel m) =
        some ((fun _ => Value.int 7) m))) :=
  ⟨by decide, overflow_retry_missing_keys [.minM, .sumM] (fun _ => Value.int 7) 100046 ⟨false⟩ (by decide)⟩

/-- Claim C1 counterexample: a Static unit for column id of table users
whose metric computation raises is recorded as a failure, yet
`get_all_metrics` still adds a row for that column to the aggregate —
`columns[id]` holds the name/timestamp annotation — contradicting the
claim that the unit contributes no row. -/
theorem failed_unit_still_in_columns_cex :
    (compute_metrics_in_thread ("users") (some ("id")) .Static
        (getMetricsStatic .postgres [.minM] (fun _ => Value.int 1) .otherError .succeeds)
        ⟨false⟩ ⟨none, [], [], []⟩).2.1.failures =
      [⟨"", "id metric_type.value: RuntimeError"⟩] ∧
    (get_all_metrics 0
        [(compute_metrics_in_thread ("users") (some ("id")) .Static
            (getMetricsStatic .postgres [.minM] (fun _ => Value.int 1) .otherError .succeeds)
            ⟨false⟩ ⟨none, [], [], []⟩).2.2]).columns =
      [(some ("id"), [("name", Value.str ("id")), ("timestamp", Value.int 0)])] ∧
    (get_all_metrics 0
        [(compute_metrics_in_thread ("users") (some ("id")) .Static
            (getMetricsStatic .postgres [.minM] (fun _ => Value.int 1) .otherError .succeeds)
            ⟨false⟩ ⟨none, [], [], []⟩).2.2]).columns ≠ [] := by
  refine ⟨by decide, by decide, by decide⟩

/-- Claim C1 as amended (a failed column unit contributes no metric values
but still appears in columns with only the name/timestamp annotation): for
a Static column unit whose metric computation raises a
non-ProgrammingError exception, the exception is caught, the unit's
session is rolled back, a failure is recorded against the processor entity
and the unit's row is null; aggregation then leaves the table and system
maps untouched and stores only the annotation under that column. -/
theorem unit_exception_no_metric_row
    (dialect : Dialect) (metrics : List MetricName) (val : MetricName → Value)
    (retry : AttemptOutcome) (tableName col : String)
    (ps : ProfilerProcessorStatus) (ts : Int) :
    (compute_metrics_in_thread tableName (some col) .Static
        (getMetricsStatic dialect metrics val .otherError retry) ⟨false⟩ ps).1.rolledBack = true ∧
    (compute_metrics_in_thread tableName (some col) .Static
        (getMetricsStatic dialect metrics val .otherError retry) ⟨false⟩ ps).2.1.failures =
      ps.failures ++ [⟨ps.entity.getD "", col ++ " metric_type.value: " ++ errName .runtimeError⟩] ∧
    (compute_metrics_in_thread tableName (some col) .Static
        (getMetricsStatic dialect metrics val .otherError retry) ⟨false⟩ ps).2.2 =
      ⟨none, some col, .Static⟩ ∧
    (aggStep ts emptyProfileResults ⟨none, some col, .Static⟩).columns =
      [(some col, annotRow (some col) ts)] ∧
    (aggStep ts emptyProfileResults ⟨none, some col, .Static⟩).table = [] ∧
    (aggStep ts emptyProfileResults ⟨none, some col, .Static⟩).system = none := by
  refine ⟨rfl, rfl, rfl, ?_, rfl, rfl⟩
  simp [aggStep, emptyProfileResults, colsSet, colsGet, annotRow,
    dictUpdate, dictSet, Value.ofOptStr]

end OMProfiler
